import Mathlib

/-!
Shallow embedding of the abcds-detector annotation-evaluation pipeline
(`helpers/generic_helpers.py`, `annotations_evaluation/annotations_generation.py`,
`annotations_evaluation/features/a_dynamic_start.py`) together with proofs of
the spec's claims about it.

Conventions of the embedding:
* Python numbers are modelled as rationals (`ℚ`); Python's `/` on them is
  exact rational division.
* JSON values are the inductive `Json`; a Python `dict.get` that misses
  returns `none` (Python `None`).
* Python exceptions are modelled by `Except PyError`; each constructor of
  `PyError` names the Python exception class the statement would raise.
* Filesystem reads are modelled by a map from path to `FileContent`.
-/

namespace ABCD

/-- JSON values as produced by `json.load`. Objects keep key order, as Python
dicts do. -/
inductive Json where
  | null : Json
  | bool (b : Bool) : Json
  | num (q : ℚ) : Json
  | str (s : String) : Json
  | arr (elems : List Json) : Json
  | obj (fields : List (String × Json)) : Json

/-- Python exception classes raised by the embedded code. -/
inductive PyError where
  | fileNotFoundError
  | jsonDecodeError
  | typeError
  | indexError
  | keyError
  | attributeError
  | valueError
  | timeoutError
deriving DecidableEq, Repr

/-- `d.get(k)`: the value of the first binding of `k`, or `none` (Python
`None`) when the key is absent. -/
def dictGet (fields : List (String × Json)) (k : String) : Option Json :=
  (fields.find? (fun p => p.1 = k)).map (fun p => p.2)

/-- What `open` + `json.load` can encounter at a path: no file, a file whose
bytes are not valid JSON, or a parsed JSON document. -/
inductive FileContent where
  | missing : FileContent
  | invalid : FileContent
  | content (j : Json) : FileContent

/-- `load_blob` (generic_helpers.py): open the file, `json.load` it, then
return `data.get("annotation_results")[0]`.  Error cases mirror Python:
a missing file raises `FileNotFoundError`, unparseable bytes raise
`json.JSONDecodeError`, a non-dict document has no `.get`
(`AttributeError`), an absent key makes `.get` return `None` and `None[0]`
raises `TypeError` (as does subscripting a non-sequence), an empty list
raises `IndexError` on `[0]`; a nonempty string `s` yields `s[0]`. -/
def load_blob (fs : String → FileContent) (annotation_uri : String) :
    Except PyError Json :=
  match fs annotation_uri with
  | .missing => .error .fileNotFoundError
  | .invalid => .error .jsonDecodeError
  | .content j =>
    match j with
    | .obj fields =>
      match dictGet fields "annotation_results" with
      | none => .error .typeError
      | some .null => .error .typeError
      | some (.bool _) => .error .typeError
      | some (.num _) => .error .typeError
      | some (.obj _) => .error .keyError
      | some (.str s) =>
        match s.toList with
        | [] => .error .indexError
        | c :: _ => .ok (.str c.toString)
      | some (.arr elems) =>
        match elems with
        | [] => .error .indexError
        | first :: _ => .ok first
    | _ => .error .attributeError

/-- One entry of the `evaluated_features` list consumed by
`calculate_score` / `print_score_details`: only its truthy `detected`
field is read. -/
structure EvaluatedFeature where
  name : String
  detected : Bool
deriving DecidableEq, Repr

/-- `calculate_score` (generic_helpers.py): count the features whose
`detected` is truthy, then `(passed * 100) / total` when `total > 0`,
else `0`. -/
def calculate_score (evaluated_features : List EvaluatedFeature) : ℚ :=
  let total_features : ℕ := evaluated_features.length
  let passed_features_count : ℕ :=
    evaluated_features.foldl
      (fun acc feature => if feature.detected then acc + 1 else acc) 0
  if total_features > 0 then
    ((passed_features_count : ℚ) * 100) / (total_features : ℚ)
  else 0

/-- The verdict bucket printed by `print_score_details`
(generic_helpers.py): `score >= 80` → Excellent, else
`score >= 65 and score < 80` → Might Improve, else Needs Review. -/
def score_bucket (score : ℚ) : String :=
  if score ≥ 80 then "Excellent"
  else if score ≥ 65 ∧ score < 80 then "Might Improve"
  else "Needs Review"

/-- Digit run to a value: `some (value, digit count)` when every character is
a decimal digit (an empty run gives `some (0, 0)`), otherwise `none`. -/
def parseDecDigits (cs : List Char) : Option (ℕ × ℕ) :=
  cs.foldl (fun acc c =>
    match acc with
    | none => none
    | some (v, n) => if c.isDigit then some (v * 10 + (c.toNat - 48), n + 1) else none)
    (some (0, 0))

/-- Split a character list at the first `'.'`; `none` when there is no dot. -/
def splitAtDot : List Char → List Char × Option (List Char)
  | [] => ([], none)
  | c :: rest =>
    if c = '.' then ([], some rest)
    else
      let (pre, post) := splitAtDot rest
      (c :: pre, post)

/-- The digits (with optional single dot) of a Python decimal float literal,
sign already removed: at least one digit required, a second dot or any other
character is rejected. -/
def pyFloatUnsigned (cs : List Char) : Option ℚ :=
  match splitAtDot cs with
  | (intPart, none) =>
    match parseDecDigits intPart with
    | some (v, n) => if 0 < n then some ((v : ℚ)) else none
    | none => none
  | (intPart, some fracPart) =>
    match parseDecDigits intPart, parseDecDigits fracPart with
    | some (iv, ik), some (fv, fk) =>
      if 0 < ik + fk then some ((iv : ℚ) + (fv : ℚ) / (10 : ℚ) ^ fk) else none
    | _, _ => none

/-- Python's `float(s)` on decimal literals: optional sign, digits with at
most one dot.  `none` models `ValueError` (in particular any leftover
suffix such as `"2.5s"` is rejected).  Surrounding whitespace, exponents,
`inf` and `nan` are not modelled; the offset strings the detector reads
never contain them. -/
def pyFloat (s : String) : Option ℚ :=
  match s.toList with
  | '-' :: rest => (pyFloatUnsigned rest).map (fun q => -q)
  | '+' :: rest => pyFloatUnsigned rest
  | rest => pyFloatUnsigned rest

/-- The `total_ms_first_shot` computation inside `detect_dynamic_start`
(a_dynamic_start.py): it starts at `0`; when `seconds` is truthy the code
first evaluates `seconds.replace("s", "")` and DISCARDS the result (Python
strings are immutable and the call is not assigned), then computes
`(float(seconds) * 1e9) / 1e6` on the original, unstripped value.  A
seconds-suffixed string therefore makes `float` raise `ValueError`; a
truthy non-string has no `.replace` and raises `AttributeError`; a falsy
`seconds` (`None`, `""`, `0`, empty containers) leaves the value at `0`. -/
def total_ms_first_shot (seconds : Option Json) : Except PyError ℚ :=
  match seconds with
  | none => .ok 0
  | some .null => .ok 0
  | some (.str s) =>
    if s = "" then .ok 0
    else
      match pyFloat s with
      | none => .error .valueError
      | some q => .ok (q * 1000000000 / 1000000)
  | some (.bool b) => if b then .error .attributeError else .ok 0
  | some (.num q) => if q = 0 then .ok 0 else .error .attributeError
  | some (.arr []) => .ok 0
  | some (.arr (_ :: _)) => .error .attributeError
  | some (.obj []) => .ok 0
  | some (.obj (_ :: _)) => .error .attributeError

/-- `detect_dynamic_start` (a_dynamic_start.py), given the already-loaded
generic-annotations dict: if the `shot_annotations` key is absent the else
branch prints a skip message and the verdict stays `False`; otherwise the
code takes element `[0]` of the value (raising `IndexError` on an empty
list), reads its `end_time_offset`, converts via `total_ms_first_shot`, and
reports `True` iff the milliseconds are strictly below the cutoff. -/
def detect_dynamic_start (shot_annotation_results : List (String × Json))
    (dynamic_cutoff_ms : ℚ) : Except PyError Bool :=
  match dictGet shot_annotation_results "shot_annotations" with
  | none => .ok false
  | some shots =>
    match shots with
    | .arr [] => .error .indexError
    | .arr (first_shot :: _) =>
      match first_shot with
      | .obj shot_fields =>
        match total_ms_first_shot (dictGet shot_fields "end_time_offset") with
        | .error e => .error e
        | .ok ms => .ok (if ms < dynamic_cutoff_ms then true else false)
      | _ => .error .attributeError
    | _ => .error .typeError

/-- One row of `assessment_bq` as touched by
`update_annotations_evaluated_features`: its `feature_id`, its primary
`detected` verdict, and the two keys the merge may add (modelled as
`Option`, `none` = key absent). -/
structure BqFeature where
  feature_id : String
  detected : Bool
  using_annotations : Option Bool := none
  annotations_evaluation : Option Bool := none
deriving DecidableEq, Repr

/-- One entry of `annotations_evaluation["evaluated_features"]`: the fields
the merge reads (`.get("id")`, `.get("detected")`). -/
structure AnnotationsEvalFeature where
  id : String
  detected : Bool
deriving DecidableEq, Repr

/-- `get_feature_by_id` (generic_helpers.py): filter by `feature_id` and
return the first hit, else `None`. -/
def get_feature_by_id (features : List BqFeature) (feature_id : String) :
    Option BqFeature :=
  match features.filter (fun f => f.feature_id = feature_id) with
  | [] => none
  | found :: _ => found

/-- The in-place effect of one iteration of
`update_annotations_evaluated_features`: `get_feature_by_id` aliases the
first element of `assessment_bq` whose `feature_id` matches, and the two
assignments mutate exactly that element (setting `using_annotations = True`
and `annotations_evaluation` to the secondary verdict), touching nothing
else; with no match the list is unchanged (the entry is printed and
dropped). -/
def update_feature_found (assessment_bq : List BqFeature) (feature_id : String)
    (annotations_detected : Bool) : List BqFeature :=
  match assessment_bq with
  | [] => []
  | f :: rest =>
    if f.feature_id = feature_id then
      { f with using_annotations := some true,
               annotations_evaluation := some annotations_detected } :: rest
    else f :: update_feature_found rest feature_id annotations_detected

/-- `update_annotations_evaluated_features` (generic_helpers.py): when the
annotations evaluation is falsy nothing changes; otherwise each secondary
verdict is looked up by id in `assessment_bq` and merged in place. -/
def update_annotations_evaluated_features (assessment_bq : List BqFeature)
    (annotations_evaluation : Option (List AnnotationsEvalFeature)) :
    List BqFeature :=
  match annotations_evaluation with
  | none => assessment_bq
  | some evaluated_features =>
    evaluated_features.foldl
      (fun acc ev => update_feature_found acc ev.id ev.detected) assessment_bq

/-- Spec-side description of the merge, per feature: a matched primary
feature gains the multiple-sources flag and the secondary verdict as
additional fields, its own verdict untouched; an unmatched one is returned
unchanged. -/
def mergeFeature (evaluated_features : List AnnotationsEvalFeature)
    (f : BqFeature) : BqFeature :=
  match evaluated_features.find? (fun ev => ev.id = f.feature_id) with
  | some ev => { f with using_annotations := some true,
                        annotations_evaluation := some ev.detected }
  | none => f

/-- The `Annotations` enum (annotations_generation.py). -/
inductive Annotations where
  | GENERIC_ANNOTATIONS
  | FACE_ANNOTATIONS
  | PEOPLE_ANNOTATIONS
  | SPEECH_ANNOTATIONS
deriving DecidableEq, Repr

/-- `Annotations.value`: the canonical file-name string of each kind. -/
def Annotations.value : Annotations → String
  | .GENERIC_ANNOTATIONS => "generic_annotations"
  | .FACE_ANNOTATIONS => "face_annotations"
  | .PEOPLE_ANNOTATIONS => "people_annotations"
  | .SPEECH_ANNOTATIONS => "speech_annotations"

/-- The Video Intelligence features requested by the dispatcher. -/
inductive Feature where
  | TEXT_DETECTION
  | SHOT_CHANGE_DETECTION
  | LOGO_RECOGNITION
  | LABEL_DETECTION
  | FACE_DETECTION
  | PERSON_DETECTION
  | SPEECH_TRANSCRIPTION
deriving DecidableEq, Repr

/-- `videointelligence.FaceDetectionConfig` fields set by the dispatcher. -/
structure FaceDetectionConfig where
  include_bounding_boxes : Bool
  include_attributes : Bool
deriving DecidableEq, Repr

/-- `videointelligence_v1.types.PersonDetectionConfig` fields set by the
dispatcher. -/
structure PersonDetectionConfig where
  include_bounding_boxes : Bool
  include_attributes : Bool
  include_pose_landmarks : Bool
deriving DecidableEq, Repr

/-- `videointelligence.SpeechTranscriptionConfig` fields set by the
dispatcher. -/
structure SpeechTranscriptionConfig where
  language_code : String
  enable_automatic_punctuation : Bool
deriving DecidableEq, Repr

/-- A `VideoContext` as built in `generate_video_annotations`: each carries
exactly one area-specific configuration. -/
inductive VideoContext where
  | face (c : FaceDetectionConfig)
  | person (c : PersonDetectionConfig)
  | speech (c : SpeechTranscriptionConfig)
deriving DecidableEq, Repr

/-- One `annotate_video` task as assembled by `generate_video_annotations`:
the requested feature list, the optional per-area context, the artifact
file path written on success, and the per-video directory created if
absent. -/
structure AnnotateRequest where
  features : List Feature
  context : Option VideoContext
  local_path : String
  video_path : String
deriving DecidableEq, Repr

/-- `generate_video_annotations` (annotations_generation.py): the list of
the four tasks appended to `tasks`, in submission order — the standard
request bundling text/shot/logo/label, then the face, people and speech
custom requests — with the artifact paths
`{local_path}/{filename}/{kind}.json` and the shared video directory. -/
def generate_video_annotations (filename : String) (local_path : String) :
    List AnnotateRequest :=
  let video_path := local_path ++ "/" ++ filename
  let standard_annotations_path := local_path ++ "/" ++ filename ++ "/"
    ++ Annotations.GENERIC_ANNOTATIONS.value ++ ".json"
  let face_annotations_path := local_path ++ "/" ++ filename ++ "/"
    ++ Annotations.FACE_ANNOTATIONS.value ++ ".json"
  let people_annotations_path := local_path ++ "/" ++ filename ++ "/"
    ++ Annotations.PEOPLE_ANNOTATIONS.value ++ ".json"
  let speech_annotations_path := local_path ++ "/" ++ filename ++ "/"
    ++ Annotations.SPEECH_ANNOTATIONS.value ++ ".json"
  [{ features := [.TEXT_DETECTION, .SHOT_CHANGE_DETECTION,
                  .LOGO_RECOGNITION, .LABEL_DETECTION],
     context := none,
     local_path := standard_annotations_path,
     video_path := video_path },
   { features := [.FACE_DETECTION],
     context := some (.face { include_bounding_boxes := true,
                              include_attributes := true }),
     local_path := face_annotations_path,
     video_path := video_path },
   { features := [.PERSON_DETECTION],
     context := some (.person { include_bounding_boxes := true,
                                include_attributes := true,
                                include_pose_landmarks := true }),
     local_path := people_annotations_path,
     video_path := video_path },
   { features := [.SPEECH_TRANSCRIPTION],
     context := some (.speech { language_code := "en-US",
                                enable_automatic_punctuation := true }),
     local_path := speech_annotations_path,
     video_path := video_path }]

/-- A filesystem as touched by the annotation tasks: existing directories
and written artifact files. -/
structure AnnotationFS where
  dirs : List String
  files : List (String × Json)

/-- The success path shared by `standard_annotations_detection` and
`custom_annotations_detection`: after `operation.result(timeout=800)`
resolves, create the video directory if absent (`os.makedirs`) and write
the response JSON to the request's artifact path. -/
def write_annotation_artifact (fsys : AnnotationFS) (req : AnnotateRequest)
    (response : Json) : AnnotationFS :=
  { dirs := if req.video_path ∈ fsys.dirs then fsys.dirs
            else fsys.dirs ++ [req.video_path],
    files := fsys.files ++ [(req.local_path, response)] }

/-- A completed annotation task as observed by `execute_tasks_in_parallel`:
the artifact writes it performed while running, and the outcome its
`result()` call reports (`ok`, or the exception it re-raises — e.g.
`TimeoutError`).  Every submitted task runs to completion on the thread
pool: the executor joins all of them and never cancels a sibling, so the
writes happen regardless of other tasks' outcomes. -/
structure TaskOutcome where
  writes : List (String × Json)
  outcome : Except PyError Unit

/-- The `for running_task in running_tasks: results.append(...)` loop of
`execute_tasks_in_parallel`: results are collected in submission order and
the first exception escapes the loop. -/
def collect_results : List (Except PyError Unit) → Except PyError (List Unit)
  | [] => .ok []
  | r :: rs =>
    match r with
    | .error e => .error e
    | .ok u =>
      match collect_results rs with
      | .error e => .error e
      | .ok us => .ok (u :: us)

/-- `execute_tasks_in_parallel` (generic_helpers.py): submit every task (so
every task's writes occur), then collect results in order; an exception
from any `result()` call escapes the function uncaught. -/
def execute_tasks_in_parallel (tasks : List TaskOutcome) :
    List (String × Json) × Except PyError (List Unit) :=
  ((tasks.map (fun t => t.writes)).flatten,
   collect_results (tasks.map (fun t => t.outcome)))

/-- One entity `element["result"]` of a knowledge-graph response: the two
fields the code reads, `name` and `@id`. -/
structure KGEntity where
  name : String
  atId : String
deriving DecidableEq, Repr

/-- Python `str.lower()` (on the ASCII strings involved here). -/
def pyLower (s : String) : String :=
  String.mk (s.data.map Char.toLower)

/-- Python dict assignment `d[k] = v`: overwrite in place when the key
exists, else append the binding; insertion order is preserved. -/
def dictAssign (m : List (String × KGEntity)) (k : String) (v : KGEntity) :
    List (String × KGEntity) :=
  if m.any (fun p => p.1 = k) then
    m.map (fun p => if p.1 = k then (k, v) else p)
  else m ++ [(k, v)]

/-- The body of the inner loop of `get_knowledge_graph_entities`: store the
entity under key `element["result"]["@id"][3:]`, but only when the CURRENT
query equals the entity's name case-insensitively. -/
def kg_inner_step (query : String) (kg_entities : List (String × KGEntity))
    (element : KGEntity) : List (String × KGEntity) :=
  if pyLower query = pyLower element.name then
    dictAssign kg_entities (element.atId.drop 3) element
  else kg_entities

/-- `get_knowledge_graph_entities` (generic_helpers.py), abstracted over the
service call `query ↦ itemListElement results`: for each query in order,
fold the response's entities through `kg_inner_step`. -/
def get_knowledge_graph_entities (service : String → List KGEntity)
    (queries : List String) : List (String × KGEntity) :=
  queries.foldl
    (fun kg_entities query => (service query).foldl (kg_inner_step query) kg_entities)
    []

/-- A concrete service for which the response to query "a" contains an
entity named "b": returned entities are compared against their own query
only. -/
def kg_service_example : String → List KGEntity :=
  fun query => if query = "a" then [{ name := "b", atId := "kg:/m/x" }] else []

/-- The detected-count of `calculate_score`'s loop equals the length of the
sublist of detected features. -/
lemma passed_count_eq_filter (fs : List EvaluatedFeature) (acc : ℕ) :
    fs.foldl (fun acc feature => if feature.detected then acc + 1 else acc) acc
      = acc + (fs.filter (fun f => f.detected)).length := by
  induction fs generalizing acc with
  | nil => simp
  | cons f rest ih =>
    by_cases h : f.detected
    · simp [List.filter, h, ih]
      omega
    · simp [List.filter, h, ih]

/-- C1: `calculate_score` returns `100 * detected / total`, `0` on the empty
list (no division by zero), always lies in `[0, 100]`, and is `0` exactly
when the list is empty or no feature is detected. -/
theorem calculate_score_correct (fs : List EvaluatedFeature) :
    calculate_score fs
      = (if fs.length = 0 then 0
         else 100 * ((fs.filter (fun f => f.detected)).length : ℚ) / (fs.length : ℚ))
    ∧ 0 ≤ calculate_score fs ∧ calculate_score fs ≤ 100
    ∧ (calculate_score fs = 0 ↔ fs = [] ∨ ∀ f ∈ fs, f.detected = false) := by
  have hpass := passed_count_eq_filter fs 0
  set passed : ℕ := (fs.filter (fun f => f.detected)).length with hp
  have hle : passed ≤ fs.length := List.length_filter_le _ _
  rcases Nat.eq_zero_or_pos fs.length with hlen | hlen
  · have hnil : fs = [] := List.length_eq_zero.mp hlen
    subst hnil
    simp [calculate_score]
  · have hne : fs ≠ [] := by
      intro h
      subst h
      simp at hlen
    have htotal : (0 : ℚ) < (fs.length : ℚ) := by exact_mod_cast hlen
    have hval : calculate_score fs = ((passed : ℚ) * 100) / (fs.length : ℚ) := by
      simp only [calculate_score, hpass, Nat.zero_add]
      rw [if_pos hlen]
    refine ⟨?_, ?_, ?_, ?_⟩
    · rw [if_neg (Nat.pos_iff_ne_zero.mp hlen), hval]
      ring
    · rw [hval]
      positivity
    · rw [hval, div_le_iff₀ htotal]
      have : (passed : ℚ) ≤ (fs.length : ℚ) := by exact_mod_cast hle
      nlinarith
    · rw [hval]
      constructor
      · intro h0
        right
        have h100 : (passed : ℚ) * 100 = 0 := by
          rcases div_eq_zero_iff.mp h0 with h | h
          · exact h
          · exact absurd h (ne_of_gt htotal)
        have hq0 : (passed : ℚ) = 0 := by
          rcases mul_eq_zero.mp h100 with h | h
          · exact h
          · norm_num at h
        have hp0 : passed = 0 := by exact_mod_cast hq0
        have hfil : fs.filter (fun f => f.detected) = [] :=
          List.length_eq_zero.mp hp0
        intro f hf
        have := List.filter_eq_nil_iff.mp hfil f hf
        simpa using this
      · rintro (h | h)
        · exact absurd h hne
        · have hfil : fs.filter (fun f => f.detected) = [] := by
            apply List.filter_eq_nil_iff.mpr
            intro f hf
            simp [h f hf]
          have hp0 : passed = 0 := by rw [hp, hfil]; rfl
          rw [hp0]
          simp

/-- C4: the bucket printed by `print_score_details` is "Excellent" iff
`score ≥ 80`, "Might Improve" iff `65 ≤ score < 80`, and "Needs Review" iff
`score < 65`. -/
theorem score_bucket_correct (s : ℚ) :
    (score_bucket s = "Excellent" ↔ 80 ≤ s)
    ∧ (score_bucket s = "Might Improve" ↔ 65 ≤ s ∧ s < 80)
    ∧ (score_bucket s = "Needs Review" ↔ s < 65) := by
  have hem : ("Excellent" : String) ≠ "Might Improve" := by decide
  have hen : ("Excellent" : String) ≠ "Needs Review" := by decide
  have hme : ("Might Improve" : String) ≠ "Excellent" := by decide
  have hmn : ("Might Improve" : String) ≠ "Needs Review" := by decide
  have hnre : ("Needs Review" : String) ≠ "Excellent" := by decide
  have hnrm : ("Needs Review" : String) ≠ "Might Improve" := by decide
  unfold score_bucket
  rcases le_or_lt 80 s with h80 | h80
  · rw [if_pos h80]
    refine ⟨⟨fun _ => h80, fun _ => rfl⟩,
      ⟨fun h => absurd h hem, fun h => ?_⟩, ⟨fun h => absurd h hen, fun h => ?_⟩⟩
    · exact absurd h80 (not_le.mpr h.2)
    · exact absurd h80 (not_le.mpr (by linarith))
  · rw [if_neg (not_le.mpr h80)]
    rcases le_or_lt 65 s with h65 | h65
    · rw [if_pos ⟨h65, h80⟩]
      refine ⟨⟨fun h => absurd h hme, fun h => ?_⟩,
        ⟨fun _ => ⟨h65, h80⟩, fun _ => rfl⟩, ⟨fun h => absurd h hmn, fun h => ?_⟩⟩
      · exact absurd h80 (not_lt.mpr h)
      · exact absurd h65 (not_le.mpr h)
    · have hcond : ¬(s ≥ 65 ∧ s < 80) := by
        rintro ⟨h, -⟩
        exact absurd h65 (not_lt.mpr h)
      rw [if_neg hcond]
      refine ⟨⟨fun h => absurd h hnre, fun h => ?_⟩,
        ⟨fun h => absurd h hnrm, fun h => ?_⟩, ⟨fun _ => h65, fun _ => rfl⟩⟩
      · exact absurd h65 (not_lt.mpr (by linarith))
      · exact absurd h65 (not_lt.mpr h.1)

/-- C4 witness: concrete boundary scores land in the stated buckets. -/
theorem score_bucket_correct_witness :
    score_bucket 80 = "Excellent" ∧ score_bucket (799999/10000) = "Might Improve"
    ∧ score_bucket 65 = "Might Improve" ∧ score_bucket (649999/10000) = "Needs Review" :=
  ⟨(score_bucket_correct 80).1.mpr (by norm_num),
   (score_bucket_correct _).2.1.mpr (by norm_num),
   (score_bucket_correct 65).2.1.mpr (by norm_num),
   (score_bucket_correct _).2.2.mpr (by norm_num)⟩

/-- C5: `load_blob` returns the first element of the `annotation_results`
array when the file parses to a dict with a nonempty array there, and
raises (returns an error, never a value) when the file is missing, is not
valid JSON, lacks the key, or holds an empty array. -/
theorem load_blob_correct (fs : String → FileContent) (uri : String) :
    (∀ fields first rest,
        fs uri = .content (.obj fields) →
        dictGet fields "annotation_results" = some (.arr (first :: rest)) →
        load_blob fs uri = .ok first)
    ∧ (fs uri = .missing → load_blob fs uri = .error .fileNotFoundError)
    ∧ (fs uri = .invalid → load_blob fs uri = .error .jsonDecodeError)
    ∧ (∀ fields, fs uri = .content (.obj fields) →
        dictGet fields "annotation_results" = none →
        load_blob fs uri = .error .typeError)
    ∧ (∀ fields, fs uri = .content (.obj fields) →
        dictGet fields "annotation_results" = some (.arr []) →
        load_blob fs uri = .error .indexError) := by
  refine ⟨?_, ?_, ?_, ?_, ?_⟩
  · intro fields first rest hfs hget
    simp only [load_blob, hfs, hget]
  · intro hfs
    simp only [load_blob, hfs]
  · intro hfs
    simp only [load_blob, hfs]
  · intro fields hfs hget
    simp only [load_blob, hfs, hget]
  · intro fields hfs hget
    simp only [load_blob, hfs, hget]

/-- C5 witness: `load_blob` on concrete files, exercising the success case
and each failure case. -/
theorem load_blob_correct_witness :
    load_blob (fun _ => .content (.obj [("annotation_results", .arr [.num 7, .num 8])])) "p"
      = .ok (.num 7)
    ∧ load_blob (fun _ => .missing) "p" = .error .fileNotFoundError
    ∧ load_blob (fun _ => .invalid) "p" = .error .jsonDecodeError
    ∧ load_blob (fun _ => .content (.obj [("other", .null)])) "p" = .error .typeError
    ∧ load_blob (fun _ => .content (.obj [("annotation_results", .arr [])])) "p"
      = .error .indexError :=
  ⟨(load_blob_correct _ "p").1 _ (.num 7) [.num 8] rfl rfl,
   (load_blob_correct _ "p").2.1 rfl,
   (load_blob_correct _ "p").2.2.1 rfl,
   (load_blob_correct _ "p").2.2.2.1 _ rfl rfl,
   (load_blob_correct _ "p").2.2.2.2 _ rfl rfl⟩

/-- C9: `load_blob` is deterministic in the file's contents — two reads that
see the same bytes yield identical results. -/
theorem load_blob_deterministic (fs1 fs2 : String → FileContent) (uri : String)
    (h : fs1 uri = fs2 uri) : load_blob fs1 uri = load_blob fs2 uri := by
  unfold load_blob
  rw [h]

/-- Evaluation of `detect_dynamic_start` on a single shot whose
`end_time_offset` is a nonempty string accepted by `float`. -/
lemma detect_dynamic_start_single_shot (s : String) (q cutoff : ℚ)
    (hs : ¬s = "") (hq : pyFloat s = some q) :
    detect_dynamic_start
      [("shot_annotations", .arr [.obj [("end_time_offset", .str s)]])] cutoff
      = .ok (if q * 1000000000 / 1000000 < cutoff then true else false) := by
  have hd1 : dictGet
      [("shot_annotations", Json.arr [Json.obj [("end_time_offset", Json.str s)]])]
      "shot_annotations"
      = some (Json.arr [Json.obj [("end_time_offset", Json.str s)]]) := rfl
  have hd2 : dictGet [("end_time_offset", Json.str s)] "end_time_offset"
      = some (Json.str s) := rfl
  simp only [detect_dynamic_start, hd1, hd2, total_ms_first_shot, if_neg hs, hq]

/-- C2: the dynamic-start detector on a first shot whose `end_time_offset`
is the seconds-suffixed string "2.5s" with cutoff 3000 raises `ValueError`
instead of returning detected=true: the result of `seconds.replace("s", "")`
is discarded, so `float` is applied to the unstripped string.  On the
already-unsuffixed strings "2.5" and "3.5" the `1e9`-then-`1e6` scaling and
the strict cutoff comparison behave exactly as the claim states. -/
theorem detect_dynamic_start_suffix_bug :
    detect_dynamic_start
      [("shot_annotations", .arr [.obj [("end_time_offset", .str "2.5s")]])] 3000
      = .error .valueError
    ∧ detect_dynamic_start
      [("shot_annotations", .arr [.obj [("end_time_offset", .str "2.5")]])] 3000
      = .ok true
    ∧ detect_dynamic_start
      [("shot_annotations", .arr [.obj [("end_time_offset", .str "3.5")]])] 3000
      = .ok false := by
  have h25 : pyFloat "2.5" = some (((2 : ℕ) : ℚ) + ((5 : ℕ) : ℚ) / (10 : ℚ) ^ (1 : ℕ)) := rfl
  have h35 : pyFloat "3.5" = some (((3 : ℕ) : ℚ) + ((5 : ℕ) : ℚ) / (10 : ℚ) ^ (1 : ℕ)) := rfl
  refine ⟨rfl, ?_, ?_⟩
  · rw [detect_dynamic_start_single_shot _ _ 3000 (by decide) h25, if_pos (by norm_num)]
  · rw [detect_dynamic_start_single_shot _ _ 3000 (by decide) h35, if_neg (by norm_num)]

/-- C3 counterexample: with the `shot_annotations` key present but holding
zero records, `detect_dynamic_start` raises `IndexError` on `[0]` rather
than returning detected=false. -/
theorem detect_dynamic_start_empty_shots_raises :
    detect_dynamic_start [("shot_annotations", .arr [])] 3000
      = .error .indexError := rfl

/-- C3 amended: only when the required annotation kind is entirely absent
from the artifact does the detector degrade gracefully, returning
detected=false (after printing a skip message) without raising. -/
theorem detect_dynamic_start_absent_kind
    (shot_annotation_results : List (String × Json)) (cutoff : ℚ)
    (h : dictGet shot_annotation_results "shot_annotations" = none) :
    detect_dynamic_start shot_annotation_results cutoff = .ok false := by
  simp only [detect_dynamic_start, h]

/-- C3 amended witness: an artifact with no shot-annotation key yields
detected=false. -/
theorem detect_dynamic_start_absent_kind_witness :
    detect_dynamic_start [("label_annotations", .arr [])] 3000 = .ok false :=
  detect_dynamic_start_absent_kind [("label_annotations", .arr [])] 3000 rfl

/-- C9 witness: two loads of one concrete unchanged file agree. -/
theorem load_blob_deterministic_witness :
    load_blob (fun _ => .content (.obj [("annotation_results", .arr [.num 1])])) "p"
      = load_blob (fun _ => .content (.obj [("annotation_results", .arr [.num 1])])) "p" :=
  load_blob_deterministic _ _ "p" rfl

/-- When the primary ids are distinct, updating the first match is the same
as updating every match. -/
lemma update_feature_found_of_nodup (fs : List BqFeature) (fid : String) (det : Bool)
    (h : (fs.map (fun f => f.feature_id)).Nodup) :
    update_feature_found fs fid det
      = fs.map (fun f =>
          if f.feature_id = fid
          then { f with using_annotations := some true,
                        annotations_evaluation := some det }
          else f) := by
  induction fs with
  | nil => rfl
  | cons f rest ih =>
    rw [List.map_cons, List.nodup_cons] at h
    obtain ⟨hnotin, hrest⟩ := h
    by_cases hf : f.feature_id = fid
    · simp only [update_feature_found, if_pos hf, List.map_cons]
      congr 1
      have hid : ∀ g ∈ rest, ¬g.feature_id = fid := by
        intro g hg heq
        exact hnotin (hf ▸ heq ▸ List.mem_map_of_mem _ hg)
      have : rest.map (fun g =>
          if g.feature_id = fid
          then { g with using_annotations := some true,
                        annotations_evaluation := some det }
          else g) = rest.map id :=
        List.map_congr_left (fun g hg => if_neg (hid g hg))
      rw [this, List.map_id]
    · simp only [update_feature_found, if_neg hf, List.map_cons]
      rw [ih hrest]

/-- `update_feature_found` never changes the sequence of feature ids. -/
lemma update_feature_found_ids (fs : List BqFeature) (fid : String) (det : Bool) :
    (update_feature_found fs fid det).map (fun f => f.feature_id)
      = fs.map (fun f => f.feature_id) := by
  induction fs with
  | nil => rfl
  | cons f rest ih =>
    by_cases hf : f.feature_id = fid
    · simp only [update_feature_found, if_pos hf, List.map_cons]
    · simp only [update_feature_found, if_neg hf, List.map_cons, ih]

/-- Folding the merge over the secondary verdicts realizes `mergeFeature`
pointwise, provided both id columns are duplicate-free. -/
lemma merge_foldl (evs : List AnnotationsEvalFeature) :
    ∀ bq : List BqFeature,
      (bq.map (fun f => f.feature_id)).Nodup →
      (evs.map (fun ev => ev.id)).Nodup →
      evs.foldl (fun acc ev => update_feature_found acc ev.id ev.detected) bq
        = bq.map (mergeFeature evs) := by
  induction evs with
  | nil =>
    intro bq _ _
    have h1 : bq.map (mergeFeature []) = bq.map id :=
      List.map_congr_left (fun f _ => rfl)
    rw [List.foldl_nil, h1, List.map_id]
  | cons ev rest ih =>
    intro bq hbq hev
    rw [List.map_cons, List.nodup_cons] at hev
    obtain ⟨hnotin, hrest⟩ := hev
    rw [List.foldl_cons, update_feature_found_of_nodup bq ev.id ev.detected hbq]
    have hcomp : ((fun f : BqFeature => f.feature_id) ∘ (fun f =>
        if f.feature_id = ev.id
        then { f with using_annotations := some true,
                      annotations_evaluation := some ev.detected }
        else f)) = fun f => f.feature_id := by
      funext f
      by_cases hf : f.feature_id = ev.id <;> simp [hf]
    have hids : ((bq.map (fun f =>
        if f.feature_id = ev.id
        then { f with using_annotations := some true,
                      annotations_evaluation := some ev.detected }
        else f)).map (fun f => f.feature_id)).Nodup := by
      rw [List.map_map, hcomp]
      exact hbq
    rw [ih _ hids hrest, List.map_map]
    apply List.map_congr_left
    intro f _
    show mergeFeature rest
        (if f.feature_id = ev.id
         then { f with using_annotations := some true,
                       annotations_evaluation := some ev.detected }
         else f)
      = mergeFeature (ev :: rest) f
    by_cases hid : f.feature_id = ev.id
    · have hfind : rest.find? (fun e => e.id = f.feature_id) = none := by
        apply List.find?_eq_none.mpr
        intro e he hde
        have heq : e.id = f.feature_id := of_decide_eq_true hde
        apply hnotin
        have hmem : e.id ∈ rest.map (fun ev => ev.id) := List.mem_map_of_mem _ he
        rwa [heq, hid] at hmem
      have hcons : (ev :: rest).find? (fun e => e.id = f.feature_id) = some ev :=
        List.find?_cons_of_pos _ (by simp [hid])
      rw [if_pos hid]
      simp only [mergeFeature, hcons]
      simp only [hfind]
    · have hcons : (ev :: rest).find? (fun e => e.id = f.feature_id)
          = rest.find? (fun e => e.id = f.feature_id) :=
        List.find?_cons_of_neg _ (by simp; exact fun h => hid h.symm)
      rw [if_neg hid]
      simp only [mergeFeature, hcons]

/-- C6: with duplicate-free id columns, the merge equals the pointwise
`mergeFeature` map — every matched primary feature gains the
multiple-sources flag and the secondary detected boolean as additional
fields — and the merged list keeps exactly the primary ids and the primary
`detected` verdicts, so unmatched secondary verdicts are dropped. -/
theorem update_annotations_evaluated_features_correct
    (assessment_bq : List BqFeature) (evaluated_features : List AnnotationsEvalFeature)
    (hbq : (assessment_bq.map (fun f => f.feature_id)).Nodup)
    (hev : (evaluated_features.map (fun ev => ev.id)).Nodup) :
    update_annotations_evaluated_features assessment_bq (some evaluated_features)
      = assessment_bq.map (mergeFeature evaluated_features)
    ∧ (update_annotations_evaluated_features assessment_bq
        (some evaluated_features)).map (fun f => f.feature_id)
      = assessment_bq.map (fun f => f.feature_id)
    ∧ (update_annotations_evaluated_features assessment_bq
        (some evaluated_features)).map (fun f => f.detected)
      = assessment_bq.map (fun f => f.detected) := by
  have hmain : update_annotations_evaluated_features assessment_bq
      (some evaluated_features)
      = assessment_bq.map (mergeFeature evaluated_features) := by
    simp only [update_annotations_evaluated_features]
    exact merge_foldl evaluated_features assessment_bq hbq hev
  refine ⟨hmain, ?_, ?_⟩
  · rw [hmain, List.map_map]
    apply List.map_congr_left
    intro f _
    simp only [Function.comp_apply, mergeFeature]
    cases hfind : evaluated_features.find? (fun ev => ev.id = f.feature_id) with
    | none => rfl
    | some ev => rfl
  · rw [hmain, List.map_map]
    apply List.map_congr_left
    intro f _
    simp only [Function.comp_apply, mergeFeature]
    cases hfind : evaluated_features.find? (fun ev => ev.id = f.feature_id) with
    | none => rfl
    | some ev => rfl

/-- C6 witness: the spec's own example — primary `f1=true`, secondary
`f1=false, f2=true` — merges to exactly one feature `f1` keeping
`detected=true` with the secondary verdict attached; `f2` is dropped. -/
theorem update_annotations_evaluated_features_correct_witness :
    update_annotations_evaluated_features
        [{ feature_id := "f1", detected := true }]
        (some [{ id := "f1", detected := false }, { id := "f2", detected := true }])
      = [{ feature_id := "f1", detected := true,
           using_annotations := some true, annotations_evaluation := some false }] := by
  have h := update_annotations_evaluated_features_correct
      [{ feature_id := "f1", detected := true }]
      [{ id := "f1", detected := false }, { id := "f2", detected := true }]
      (by decide) (by decide)
  rw [h.1]
  rfl

/-- C7: the dispatcher assembles exactly four requests — the standard
text/shot/logo/label bundle without context, then face (bounding boxes and
attributes), people, and speech (language en-US, automatic punctuation) —
whose artifact paths are `{root}/{filename}/{kind}.json` for the four
canonical kind names, and on success each task creates the per-video
directory if absent and writes exactly its own artifact file. -/
theorem generate_video_annotations_correct (filename local_path : String) :
    (generate_video_annotations filename local_path).length = 4
    ∧ (generate_video_annotations filename local_path).map (fun r => r.features)
      = [[.TEXT_DETECTION, .SHOT_CHANGE_DETECTION, .LOGO_RECOGNITION, .LABEL_DETECTION],
         [.FACE_DETECTION], [.PERSON_DETECTION], [.SPEECH_TRANSCRIPTION]]
    ∧ (generate_video_annotations filename local_path).map (fun r => r.context)
      = [none,
         some (.face { include_bounding_boxes := true, include_attributes := true }),
         some (.person { include_bounding_boxes := true, include_attributes := true,
                         include_pose_landmarks := true }),
         some (.speech { language_code := "en-US",
                         enable_automatic_punctuation := true })]
    ∧ (generate_video_annotations filename local_path).map (fun r => r.local_path)
      = [local_path ++ "/" ++ filename ++ "/"
           ++ Annotations.GENERIC_ANNOTATIONS.value ++ ".json",
         local_path ++ "/" ++ filename ++ "/"
           ++ Annotations.FACE_ANNOTATIONS.value ++ ".json",
         local_path ++ "/" ++ filename ++ "/"
           ++ Annotations.PEOPLE_ANNOTATIONS.value ++ ".json",
         local_path ++ "/" ++ filename ++ "/"
           ++ Annotations.SPEECH_ANNOTATIONS.value ++ ".json"]
    ∧ [Annotations.GENERIC_ANNOTATIONS.value, Annotations.FACE_ANNOTATIONS.value,
       Annotations.PEOPLE_ANNOTATIONS.value, Annotations.SPEECH_ANNOTATIONS.value]
      = ["generic_annotations", "face_annotations", "people_annotations",
         "speech_annotations"]
    ∧ (∀ r ∈ generate_video_annotations filename local_path,
         r.video_path = local_path ++ "/" ++ filename)
    ∧ (∀ fsys r response, r ∈ generate_video_annotations filename local_path →
         r.video_path ∈ (write_annotation_artifact fsys r response).dirs
         ∧ (write_annotation_artifact fsys r response).files
           = fsys.files ++ [(r.local_path, response)]) := by
  refine ⟨rfl, rfl, rfl, rfl, rfl, ?_, ?_⟩
  · intro r hr
    simp only [generate_video_annotations, List.mem_cons, List.not_mem_nil,
      or_false] at hr
    rcases hr with rfl | rfl | rfl | rfl <;> rfl
  · intro fsys r response _
    constructor
    · by_cases h : r.video_path ∈ fsys.dirs
      · simp [write_annotation_artifact, h]
      · simp [write_annotation_artifact, h]
    · rfl

/-- C7 witness: the standard request of a concrete dispatch writes its
artifact and creates the video directory in an empty filesystem. -/
theorem generate_video_annotations_correct_witness :
    ∃ r, r ∈ generate_video_annotations "video1.mp4" "/root"
    ∧ r.video_path ∈ (write_annotation_artifact ⟨[], []⟩ r Json.null).dirs
    ∧ (write_annotation_artifact ⟨[], []⟩ r Json.null).files
      = [(r.local_path, Json.null)] := by
  refine ⟨(generate_video_annotations "video1.mp4" "/root").head (by decide),
    List.head_mem _, ?_⟩
  exact (generate_video_annotations_correct "video1.mp4" "/root").2.2.2.2.2.2
    ⟨[], []⟩ _ Json.null (List.head_mem _)

/-- C8 counterexample: four dispatched tasks, the first timing out — the
three sibling artifacts are still written, but `execute_tasks_in_parallel`
re-raises the timeout to its caller (no caller catches it), so the run
aborts instead of continuing. -/
theorem execute_tasks_timeout_aborts :
    execute_tasks_in_parallel
        [{ writes := [], outcome := .error .timeoutError },
         { writes := [("face_annotations.json", .null)], outcome := .ok () },
         { writes := [("people_annotations.json", .null)], outcome := .ok () },
         { writes := [("speech_annotations.json", .null)], outcome := .ok () }]
      = ([("face_annotations.json", .null), ("people_annotations.json", .null),
          ("speech_annotations.json", .null)],
         .error .timeoutError) := rfl

/-- An error among the collected results makes the whole collection an
error. -/
lemma collect_results_error_of_mem (rs : List (Except PyError Unit)) (e : PyError)
    (h : .error e ∈ rs) : ∃ e', collect_results rs = .error e' := by
  induction rs with
  | nil => cases h
  | cons r rest ih =>
    rcases List.mem_cons.mp h with heq | hmem
    · exact ⟨e, by rw [← heq]; rfl⟩
    · rcases r with e0 | u
      · exact ⟨e0, rfl⟩
      · obtain ⟨e', he'⟩ := ih hmem
        exact ⟨e', by simp only [collect_results, he']⟩

/-- C8 amended: every submitted task's artifact writes survive into the
executor's effects even when a sibling fails, but a failing task makes
`execute_tasks_in_parallel` itself re-raise — the exception is not logged
per-kind and propagates to the caller, aborting the run. -/
theorem execute_tasks_in_parallel_failure_scope (tasks : List TaskOutcome)
    (t : TaskOutcome) (ht : t ∈ tasks) :
    (∀ w ∈ t.writes, w ∈ (execute_tasks_in_parallel tasks).1)
    ∧ (∀ e, t.outcome = .error e →
        ∃ e', (execute_tasks_in_parallel tasks).2 = .error e') := by
  constructor
  · intro w hw
    exact List.mem_flatten.mpr ⟨t.writes, List.mem_map_of_mem _ ht, hw⟩
  · intro e he
    apply collect_results_error_of_mem _ e
    have hmem : t.outcome ∈ tasks.map (fun t => t.outcome) :=
      List.mem_map_of_mem _ ht
    rwa [he] at hmem

/-- C8 amended witness: in a concrete two-task pool with a timed-out first
task, the second task's artifact is still written and the executor
re-raises. -/
theorem execute_tasks_in_parallel_failure_scope_witness :
    ("face_annotations.json", Json.null) ∈
      (execute_tasks_in_parallel
        [{ writes := [], outcome := .error .timeoutError },
         { writes := [("face_annotations.json", .null)], outcome := .ok () }]).1
    ∧ ∃ e', (execute_tasks_in_parallel
        [{ writes := [], outcome := .error .timeoutError },
         { writes := [("face_annotations.json", .null)], outcome := .ok () }]).2
        = .error e' :=
  ⟨(execute_tasks_in_parallel_failure_scope _ _
      (List.mem_cons_of_mem _ (List.mem_cons_self _ _))).1 _ (List.mem_cons_self _ _),
   (execute_tasks_in_parallel_failure_scope _ _ (List.mem_cons_self _ _)).2 _ rfl⟩

/-- Membership in a Python dict after one assignment: either an existing
entry, or the assigned binding. -/
lemma dictAssign_mem (m : List (String × KGEntity)) (k : String) (v : KGEntity)
    (p : String × KGEntity) (h : p ∈ dictAssign m k v) : p ∈ m ∨ p = (k, v) := by
  unfold dictAssign at h
  by_cases hk : m.any (fun p => p.1 = k) = true
  · rw [if_pos hk] at h
    obtain ⟨x, hx, hmap⟩ := List.mem_map.mp h
    by_cases hxk : x.1 = k
    · right
      rw [← hmap, if_pos hxk]
    · left
      rw [← hmap, if_neg hxk]
      exact hx
  · rw [if_neg hk] at h
    rcases List.mem_append.mp h with h1 | h1
    · exact Or.inl h1
    · exact Or.inr (List.mem_singleton.mp h1)

/-- The assigned key is a key of the dict after the assignment. -/
lemma dictAssign_key_self (m : List (String × KGEntity)) (k : String) (v : KGEntity) :
    ∃ p ∈ dictAssign m k v, p.1 = k := by
  unfold dictAssign
  by_cases hk : m.any (fun p => p.1 = k) = true
  · rw [if_pos hk]
    obtain ⟨x, hx, hxk⟩ := List.any_eq_true.mp hk
    refine ⟨(k, v), List.mem_map.mpr ⟨x, hx, ?_⟩, rfl⟩
    rw [if_pos (of_decide_eq_true hxk)]
  · rw [if_neg hk]
    exact ⟨(k, v), List.mem_append.mpr (Or.inr (List.mem_singleton.mpr rfl)), rfl⟩

/-- Assignment never removes a key. -/
lemma dictAssign_key_mono (m : List (String × KGEntity)) (k k' : String)
    (v : KGEntity) (h : ∃ p ∈ m, p.1 = k') : ∃ p ∈ dictAssign m k v, p.1 = k' := by
  obtain ⟨p, hp, hpk⟩ := h
  unfold dictAssign
  by_cases hk : m.any (fun p => p.1 = k) = true
  · rw [if_pos hk]
    by_cases hpkk : p.1 = k
    · refine ⟨(k, v), List.mem_map.mpr ⟨p, hp, by rw [if_pos hpkk]⟩, ?_⟩
      exact hpkk ▸ hpk
    · exact ⟨p, List.mem_map.mpr ⟨p, hp, by rw [if_neg hpkk]⟩, hpk⟩
  · rw [if_neg hk]
    exact ⟨p, List.mem_append.mpr (Or.inl hp), hpk⟩

/-- Every entry after the inner loop is either inherited or comes from an
entity of this response whose name matches the current query. -/
lemma kg_inner_fold_mem (query : String) (elems : List KGEntity) :
    ∀ (acc : List (String × KGEntity)) (p : String × KGEntity),
      p ∈ elems.foldl (kg_inner_step query) acc →
      p ∈ acc ∨ ∃ e ∈ elems, pyLower query = pyLower e.name
        ∧ p = (e.atId.drop 3, e) := by
  induction elems with
  | nil => exact fun acc p h => Or.inl h
  | cons e rest ih =>
    intro acc p h
    rw [List.foldl_cons] at h
    rcases ih _ p h with hacc | ⟨e', he', hm, hp⟩
    · unfold kg_inner_step at hacc
      by_cases hq : pyLower query = pyLower e.name
      · rw [if_pos hq] at hacc
        rcases dictAssign_mem _ _ _ _ hacc with h1 | h1
        · exact Or.inl h1
        · exact Or.inr ⟨e, List.mem_cons_self e rest, hq, h1⟩
      · rw [if_neg hq] at hacc
        exact Or.inl hacc
    · exact Or.inr ⟨e', List.mem_cons_of_mem _ he', hm, hp⟩

/-- The inner loop never removes a key. -/
lemma kg_inner_fold_key_mono (query : String) (elems : List KGEntity) :
    ∀ acc k', (∃ p ∈ acc, p.1 = k') →
      ∃ p ∈ elems.foldl (kg_inner_step query) acc, p.1 = k' := by
  induction elems with
  | nil => exact fun acc k' h => h
  | cons e rest ih =>
    intro acc k' h
    rw [List.foldl_cons]
    apply ih
    unfold kg_inner_step
    by_cases hq : pyLower query = pyLower e.name
    · rw [if_pos hq]
      exact dictAssign_key_mono _ _ _ _ h
    · rw [if_neg hq]
      exact h

/-- An entity of the current response whose name matches the current query
contributes its key. -/
lemma kg_inner_fold_key_adds (query : String) (elems : List KGEntity) :
    ∀ acc v, v ∈ elems → pyLower query = pyLower v.name →
      ∃ p ∈ elems.foldl (kg_inner_step query) acc, p.1 = v.atId.drop 3 := by
  induction elems with
  | nil =>
    intro acc v hv _
    cases hv
  | cons e rest ih =>
    intro acc v hv hq
    rw [List.foldl_cons]
    rcases List.mem_cons.mp hv with heq | hmem
    · subst heq
      apply kg_inner_fold_key_mono
      unfold kg_inner_step
      rw [if_pos hq]
      exact dictAssign_key_self _ _ _
    · exact ih _ v hmem hq

/-- Every entry of the final mapping comes from an entity returned for some
query whose name matches that very query. -/
lemma kg_outer_fold_mem (service : String → List KGEntity) (queries : List String) :
    ∀ acc p,
      p ∈ queries.foldl
        (fun kg_entities query =>
          (service query).foldl (kg_inner_step query) kg_entities) acc →
      p ∈ acc ∨ ∃ q ∈ queries, p.2 ∈ service q ∧ pyLower q = pyLower p.2.name
        ∧ p.1 = p.2.atId.drop 3 := by
  induction queries with
  | nil => exact fun acc p h => Or.inl h
  | cons q rest ih =>
    intro acc p h
    rw [List.foldl_cons] at h
    rcases ih _ p h with hacc | ⟨q', hq', hrest⟩
    · rcases kg_inner_fold_mem q (service q) acc p hacc with h1 | ⟨e, he, hm, hp⟩
      · exact Or.inl h1
      · subst hp
        exact Or.inr ⟨q, List.mem_cons_self _ _, he, hm, rfl⟩
    · exact Or.inr ⟨q', List.mem_cons_of_mem _ hq', hrest⟩

/-- The outer loop never removes a key. -/
lemma kg_outer_fold_key_mono (service : String → List KGEntity)
    (queries : List String) :
    ∀ acc k', (∃ p ∈ acc, p.1 = k') →
      ∃ p ∈ queries.foldl
          (fun kg_entities query =>
            (service query).foldl (kg_inner_step query) kg_entities) acc,
        p.1 = k' := by
  induction queries with
  | nil => exact fun acc k' h => h
  | cons q rest ih =>
    intro acc k' h
    rw [List.foldl_cons]
    exact ih _ _ (kg_inner_fold_key_mono q (service q) acc k' h)

/-- An entity matching its own query leaves its key in the final mapping. -/
lemma kg_outer_fold_key (service : String → List KGEntity) (queries : List String) :
    ∀ acc q v, q ∈ queries → v ∈ service q → pyLower q = pyLower v.name →
      ∃ p ∈ queries.foldl
          (fun kg_entities query =>
            (service query).foldl (kg_inner_step query) kg_entities) acc,
        p.1 = v.atId.drop 3 := by
  induction queries with
  | nil =>
    intro acc q v hq _ _
    cases hq
  | cons q0 rest ih =>
    intro acc q v hq hv hmatch
    rw [List.foldl_cons]
    rcases List.mem_cons.mp hq with heq | hmem
    · subst heq
      exact kg_outer_fold_key_mono service rest _ _
        (kg_inner_fold_key_adds q (service q) acc v hv hmatch)
    · exact ih _ q v hmem hv hmatch

/-- C10 counterexample: with queries ["a", "b"], the service's response to
"a" returns an entity named "b" — its name equals a query of the list
case-insensitively, yet the mapping is empty, because the code compares
each entity only against the query whose response contained it. -/
theorem get_knowledge_graph_entities_cross_query_dropped :
    get_knowledge_graph_entities kg_service_example ["a", "b"] = []
    ∧ ({ name := "b", atId := "kg:/m/x" } : KGEntity) ∈ kg_service_example "a"
    ∧ ("b" : String) ∈ (["a", "b"] : List String) := by
  refine ⟨by decide, ?_, by decide⟩
  simp [kg_service_example]

/-- C10 amended: the mapping contains an entry for a returned entity if and
only if the entity's name equals, case-insensitively, the query whose
response returned it; every entry's key is the entity's `@id` with its
first three characters removed, and entities not matching their own query
are silently omitted. -/
theorem get_knowledge_graph_entities_correct (service : String → List KGEntity)
    (queries : List String) :
    (∀ p ∈ get_knowledge_graph_entities service queries,
       ∃ q ∈ queries, p.2 ∈ service q ∧ pyLower q = pyLower p.2.name
         ∧ p.1 = p.2.atId.drop 3)
    ∧ (∀ q ∈ queries, ∀ v ∈ service q, pyLower q = pyLower v.name →
        ∃ p ∈ get_knowledge_graph_entities service queries,
          p.1 = v.atId.drop 3) := by
  constructor
  · intro p hp
    rcases kg_outer_fold_mem service queries [] p hp with h | h
    · cases h
    · exact h
  · intro q hq v hv hmatch
    exact kg_outer_fold_key service queries [] q v hq hv hmatch

/-- C10 amended witness: a single query matching its returned entity's name
yields an entry keyed by the id with the first three characters dropped. -/
theorem get_knowledge_graph_entities_correct_witness :
    ∃ p ∈ get_knowledge_graph_entities
        (fun query => if query = "b" then [{ name := "b", atId := "kg:/m/x" }] else [])
        ["b"],
      p.1 = ("kg:/m/x" : String).drop 3 :=
  (get_knowledge_graph_entities_correct _ ["b"]).2 "b" (List.mem_singleton.mpr rfl)
    { name := "b", atId := "kg:/m/x" } (by simp) rfl

end ABCD
